import Mathlib

/-!
Verification of the multitask BERT training and testing pipeline of
multitask_classifier.py, via a shallow embedding of the relevant parts of
the source in Lean 4.  Scalars that the Python code handles as floats
(losses, accuracies, gradient entries) are embedded as rationals; tensors
flattened to vectors are lists of rationals; Python exceptions are an
explicit error type threaded through Except.
-/

/-- Python exception kinds relevant to this development.  The constructors
configurationError and numericalError are names posited by the design
document; the source itself only ever raises assertionError, typeError or
zeroDivisionError. -/
inductive PyExc
  | assertionError
  | typeError
  | zeroDivisionError
  | configurationError
  | numericalError
deriving DecidableEq, Repr

/-- One prediction output file written by test_multitask
(multitask_classifier.py lines 659-690): the header line consists of the
text id, a space, a tab character, the task label, a space and a newline;
then one row per zipped pair of id and prediction, each row being the id,
the text comma-with-spaces, the prediction, a space and a newline. -/
def predictionFileLines (taskLabel : String) (ids preds : List String) : List String :=
  (("id \t ") ++ taskLabel ++ (" \n")) ::
    List.zipWith (fun p s => p ++ (" , ") ++ s ++ (" \n")) ids preds

/-- The six task labels used by the six output files of test_multitask
(sst dev, sst test, para dev, para test, sts dev, sts test), in source
order; note the misspelling Predicted_Similiary taken verbatim from the
source. -/
def outputTaskLabels : List String :=
  [("Predicted_Sentiment"), ("Predicted_Sentiment"),
   ("Predicted_Is_Paraphrase"), ("Predicted_Is_Paraphrase"),
   ("Predicted_Similiary"), ("Predicted_Similiary")]

/-- Averaged dev metric of one epoch: the mean of the three per-task dev
accuracies (sst, para, sts), as computed at multitask_classifier.py line
280 and line 410. -/
def devAccOf (a : ℚ × ℚ × ℚ) : ℚ := (a.1 + a.2.1 + a.2.2) / 3

/-- Epoch-end best-checkpoint logic shared by train_PCGrad (lines 280-286)
and train_simultaneous (lines 410-414): starting from the running best dev
accuracy (initialised to 0 before the epoch loop), emit for each epoch the
boolean recording whether save_model was called at the end of that epoch.
The running best is updated exactly when a save happens. -/
def saveFlags : ℚ → List (ℚ × ℚ × ℚ) → List Bool
  | _, [] => []
  | best, t :: ts =>
    if best < devAccOf t then true :: saveFlags (devAccOf t) ts
    else false :: saveFlags best ts

/-- The per-parameter trainability flags of a constructed MultitaskBERT:
the requires_grad flags of the backbone (BERT) parameters and of the
task-head parameters (dropout has no parameters; the sentiment linear head
and the two bilinear heads are created by the torch module constructors
with requires_grad defaulting to true). -/
structure MultitaskBERTState where
  bertRequiresGrad : List Bool
  headRequiresGrad : List Bool
deriving DecidableEq, Repr

/-- MultitaskBERT.__init__ (multitask_classifier.py lines 67-82) restricted
to its observable effect on trainability: the assert statement at line 71
raises AssertionError unless the fine-tune mode is last-linear-layer or
full-model; then the loop over self.bert.parameters sets requires_grad to
false in last-linear-layer mode and to true in full-model mode, and the
task heads are freshly created with every parameter trainable.  bertInit is
the list of requires_grad flags the pretrained backbone parameters carry
before the loop, and numHeadParams the number of task-head parameters. -/
def MultitaskBERT_init (fineTuneMode : String) (bertInit : List Bool) (numHeadParams : ℕ) :
    Except PyExc MultitaskBERTState :=
  if fineTuneMode = ("last-linear-layer") ∨ fineTuneMode = ("full-model") then
    Except.ok
      { bertRequiresGrad :=
          bertInit.map (fun g =>
            if fineTuneMode = ("last-linear-layer") then false
            else if fineTuneMode = ("full-model") then true
            else g),
        headRequiresGrad := List.replicate numHeadParams true }
  else Except.error PyExc.assertionError

/-- Signature of a Python function: its positional parameter names and how
many trailing parameters carry default values. -/
structure PyFunctionSig where
  params : List String
  numDefaults : ℕ
deriving DecidableEq, Repr

/-- Signature of sts_loss (multitask_classifier.py lines 139-141): three
required positional parameters and no defaults. -/
def sts_loss_sig : PyFunctionSig :=
  { params := [("logits"), ("b_labels"), ("args")], numDefaults := 0 }

/-- Python call semantics for a plain positional call: passing fewer
arguments than the number of required parameters, or more than the number
of parameters, raises TypeError. -/
def pyCallPositional (sig : PyFunctionSig) (numArgs : ℕ) : Except PyExc Unit :=
  if numArgs + sig.numDefaults < sig.params.length then Except.error PyExc.typeError
  else if sig.params.length < numArgs then Except.error PyExc.typeError
  else Except.ok ()

/-- Events of one inner training step. -/
inductive StepEvent
  | zeroGrad
  | lossBackward
  | optStep
deriving DecidableEq, Repr

/-- The body of one training step of the STS phase of train_multitask
(multitask_classifier.py lines 582-589): zero_grad runs, then line 585
calls sts_loss with exactly two positional arguments, and only if that call
succeeds do backward and the optimizer step run. -/
def stsTrainStep : Except PyExc (List StepEvent) := do
  let ev := [StepEvent.zeroGrad]
  let _ ← pyCallPositional sts_loss_sig 2
  pure (ev ++ [StepEvent.lossBackward, StepEvent.optStep])

/-- The components bundled by save_model, with each payload abstracted as a
natural number standing for an opaque serialised state. -/
inductive SaveComponent
  | modelStateDict (v : ℕ)
  | optimStateDict (v : ℕ)
  | runArgs (v : ℕ)
  | runModelConfig (v : ℕ)
  | systemRngState (v : ℕ)
  | numpyRngState (v : ℕ)
  | torchRngState (v : ℕ)
deriving DecidableEq, Repr

/-- The save_info dictionary built by save_model (multitask_classifier.py
lines 143-155), embedded as an association list in the literal order of the
source: model state dict, optimizer state dict, the run args, the model
config, and the random, numpy and torch RNG states. -/
def save_info (m o a c sr nr tr : ℕ) : List (String × SaveComponent) :=
  [(("model"), SaveComponent.modelStateDict m),
   (("optim"), SaveComponent.optimStateDict o),
   (("args"), SaveComponent.runArgs a),
   (("model_config"), SaveComponent.runModelConfig c),
   (("system_rng"), SaveComponent.systemRngState sr),
   (("numpy_rng"), SaveComponent.numpyRngState nr),
   (("torch_rng"), SaveComponent.torchRngState tr)]

/-- Optimizer-facing events of one PCGrad training step.  combinedBackward
stands for a single backward pass on a scalarised combined loss; the PCGrad
path never emits it. -/
inductive PCGradEvent
  | zeroGrad
  | pcBackward (losses : List ℚ)
  | combinedBackward (loss : ℚ)
  | optStep
deriving DecidableEq, Repr

/-- State carried across the inner loop of train_PCGrad: the trace of
optimizer-facing events and the accumulated reported training loss. -/
structure PCGradStepState where
  events : List PCGradEvent
  trainLoss : ℚ
deriving DecidableEq, Repr

/-- The body of one inner-loop step of train_PCGrad (multitask_classifier.py
lines 251-270), with the three per-task scalar losses as inputs: zero_grad,
then pc_backward on the ordered list of the three losses, then the
optimizer step; the reported training loss is incremented by the plain sum
of the three losses, which is never given to a backward pass. -/
def pcgradStep (l1 l2 l3 : ℚ) (st : PCGradStepState) : PCGradStepState :=
  let st1 : PCGradStepState := { st with events := st.events ++ [PCGradEvent.zeroGrad] }
  let lossSum := l1 + l2 + l3
  let losses := [l1, l2, l3]
  let st2 : PCGradStepState := { st1 with events := st1.events ++ [PCGradEvent.pcBackward losses] }
  let st3 : PCGradStepState := { st2 with events := st2.events ++ [PCGradEvent.optStep] }
  { st3 with trainLoss := st3.trainLoss + lossSum }

/-- The training procedures selectable in main. -/
inductive TrainAction
  | sequential
  | simultaneousTrain
  | pcgradTrain
  | noTraining
deriving DecidableEq, Repr

/-- Dispatch on args.train_type in the main block of
multitask_classifier.py (lines 747-754): None runs train_multitask (the
sequential per-task procedure), the string simultaneous runs
train_simultaneous, the string pcgrad runs train_PCGrad, and any other
string only prints a message and trains nothing. -/
def dispatchTrainType : Option String → TrainAction
  | none => TrainAction.sequential
  | some s =>
    if s = ("simultaneous") then TrainAction.simultaneousTrain
    else if s = ("pcgrad") then TrainAction.pcgradTrain
    else TrainAction.noTraining

/-- Dot product of two flattened gradient vectors. -/
def dotL (v w : List ℚ) : ℚ := (List.zipWith (fun a b => a * b) v w).sum

/-- Squared Euclidean norm of a flattened gradient vector. -/
def normSq (v : List ℚ) : ℚ := dotL v v

/-- Division that makes a division-by-zero exception observable, as Python
division would raise ZeroDivisionError. -/
def safeDiv (a b : ℚ) : Except PyExc ℚ :=
  if b = 0 then Except.error PyExc.zeroDivisionError else Except.ok (a / b)

/-- Modelled from the spec: the class PCGrad is imported from the module
pcgrad, whose file is not among the sources; this is the bare projection
formula of spec section 4.1 step 3, subtracting from pg the multiple of gj
given by the dot product of pg and gj over the squared norm of gj. -/
def projFormula (pg gj : List ℚ) : List ℚ :=
  List.zipWith (fun a b => a - (dotL pg gj / normSq gj) * b) pg gj

/-- Modelled from the spec: the class PCGrad is imported from the module
pcgrad, whose file is not among the sources.  One pairwise projection step
of compute_combined_gradients, from spec section 4.1 step 3 together with
the section 7 zero-norm policy: when the dot product of pg and gj is
negative, pg is projected onto the plane orthogonal to gj, except that a
zero-norm reference gradient makes the pair be skipped instead of dividing
by zero; a non-negative dot product performs no projection at all. -/
def projectPair (pg gj : List ℚ) : Except PyExc (List ℚ) :=
  if dotL pg gj < 0 then
    if normSq gj = 0 then Except.ok pg
    else do
      let c ← safeDiv (dotL pg gj) (normSq gj)
      Except.ok (List.zipWith (fun a b => a - c * b) pg gj)
  else Except.ok pg

lemma getElem?_zipWith_some (f : String → String → String) :
    ∀ (l1 l2 : List String) (k : ℕ) (i s : String),
      l1[k]? = some i → l2[k]? = some s →
      (List.zipWith f l1 l2)[k]? = some (f i s) := by
  intro l1
  induction l1 with
  | nil => intro l2 k i s h1 h2; simp at h1
  | cons a t ih =>
    intro l2 k i s h1 h2
    cases l2 with
    | nil => simp at h2
    | cons b t2 =>
      cases k with
      | zero =>
        simp at h1 h2
        subst h1; subst h2; simp
      | succ k =>
        simp at h1 h2 ⊢
        exact ih t2 k i s h1 h2

/-- Claim C1 (amended): every prediction output file written by
test_multitask begins with a tab-separated header line joining the text id
and the task label with a tab (surrounded by spaces, ending in a space and
a newline), and is followed by one comma-separated row per example, each
row joining the id and the prediction with a comma between spaces. -/
theorem test_multitask_output_header_and_rows :
    ∀ (label : String), label ∈ outputTaskLabels →
    ∀ (ids preds : List String),
      (predictionFileLines label ids preds).head? = some (("id \t ") ++ label ++ (" \n")) ∧
      (ids.length = preds.length →
        (predictionFileLines label ids preds).length = ids.length + 1) ∧
      ∀ (k : ℕ) (i s : String), ids[k]? = some i → preds[k]? = some s →
        (predictionFileLines label ids preds)[k + 1]? =
          some (i ++ (" , ") ++ s ++ (" \n")) := by
  intro label _ ids preds
  refine ⟨rfl, ?_, ?_⟩
  · intro h
    simp [predictionFileLines, List.length_zipWith, h]
  · intro k i s h1 h2
    simpa [predictionFileLines] using
      getElem?_zipWith_some (fun p s => p ++ (" , ") ++ s ++ (" \n")) ids preds k i s h1 h2

/-- Witness for C1: the sentiment dev output for a single example. -/
theorem test_multitask_output_header_and_rows_witness :
    (predictionFileLines ("Predicted_Sentiment") [("7")] [("3")]).head? =
        some (("id \t ") ++ ("Predicted_Sentiment") ++ (" \n")) ∧
    (predictionFileLines ("Predicted_Sentiment") [("7")] [("3")])[1]? =
        some (("7") ++ (" , ") ++ ("3") ++ (" \n")) := by
  have h := test_multitask_output_header_and_rows ("Predicted_Sentiment") (by decide)
    [("7")] [("3")]
  exact ⟨h.1, h.2.2 0 ("7") ("3") (by decide) (by decide)⟩

/-- Counterexample for C1 as stated: the header line actually written is
tab-separated, contains no comma at all, and differs from the
comma-separated header the claim describes. -/
theorem test_multitask_header_not_comma_cex :
    (predictionFileLines ("Predicted_Sentiment") [("7")] [("3")]).head? =
        some ("id \t Predicted_Sentiment \n") ∧
    ¬ (',') ∈ ("id \t Predicted_Sentiment \n").toList ∧
    ('\t') ∈ ("id \t Predicted_Sentiment \n").toList ∧
    ("id \t Predicted_Sentiment \n") ≠ ("id , Predicted_Sentiment \n") := by
  refine ⟨rfl, ?_, ?_, ?_⟩ <;> decide

lemma saveFlags_getElem? :
    ∀ (accs : List (ℚ × ℚ × ℚ)) (b : ℚ) (k : ℕ) (t : ℚ × ℚ × ℚ),
      accs[k]? = some t →
      ((saveFlags b accs)[k]? = some true ↔
        ((accs.take k).map devAccOf).foldl max b < devAccOf t) := by
  intro accs
  induction accs with
  | nil => intro b k t h; simp at h
  | cons x ts ih =>
    intro b k t h
    cases k with
    | zero =>
      simp at h
      subst h
      by_cases hb : b < devAccOf x
      · simp [saveFlags, hb]
      · simp [saveFlags, hb]
    | succ k =>
      simp at h
      by_cases hb : b < devAccOf x
      · have hmax : max b (devAccOf x) = devAccOf x := max_eq_right (le_of_lt hb)
        simpa [saveFlags, hb, hmax] using ih (devAccOf x) k t h
      · have hmax : max b (devAccOf x) = b := max_eq_left (le_of_not_lt hb)
        simpa [saveFlags, hb, hmax] using ih b k t h

/-- Claim C2: in train_PCGrad and train_simultaneous, the checkpoint is
saved at the end of epoch k exactly when that epoch's averaged dev metric
(the mean of the three per-task dev accuracies) strictly exceeds the best
value seen so far in that run, i.e. the maximum of all earlier epochs'
averaged metrics and the initial best value 0; otherwise the save is
silently skipped. -/
theorem checkpoint_saved_iff_average_improves :
    ∀ (accs : List (ℚ × ℚ × ℚ)) (k : ℕ) (t : ℚ × ℚ × ℚ),
      accs[k]? = some t →
      ((saveFlags 0 accs)[k]? = some true ↔
        ((accs.take k).map devAccOf).foldl max 0 < devAccOf t) :=
  fun accs k t h => saveFlags_getElem? accs 0 k t h

/-- Witness for C2: with a single epoch whose three dev accuracies are all
1, the averaged metric 1 exceeds the initial best 0 and the model is
saved. -/
theorem checkpoint_saved_iff_average_improves_witness :
    (saveFlags 0 [((1:ℚ), 1, 1)])[0]? = some true :=
  (checkpoint_saved_iff_average_improves [((1:ℚ), 1, 1)] 0 ((1:ℚ), 1, 1) rfl).mpr
    (by norm_num [devAccOf])

/-- Counterexample for C3 as stated: constructing the model with an
invalid fine-tune mode fails with AssertionError, raised by the failing
assert statement at line 71, which is not a ConfigurationError. -/
theorem fine_tune_mode_invalid_cex :
    MultitaskBERT_init ("bogus-mode") [] 0 = Except.error PyExc.assertionError ∧
    PyExc.assertionError ≠ PyExc.configurationError := by
  exact ⟨rfl, by decide⟩

/-- Claim C3 (amended): constructing the model with a fine_tune_mode value
other than last-linear-layer or full-model fails with AssertionError (and
with no other kind of exception), for every such invalid mode string. -/
theorem fine_tune_mode_invalid_raises_assertion :
    ∀ (mode : String) (bertInit : List Bool) (n : ℕ),
      mode ≠ ("last-linear-layer") → mode ≠ ("full-model") →
      MultitaskBERT_init mode bertInit n = Except.error PyExc.assertionError := by
  intro mode bertInit n h1 h2
  simp [MultitaskBERT_init, h1, h2]

/-- Witness for C3 (amended), at the concrete invalid mode string bogus. -/
theorem fine_tune_mode_invalid_raises_assertion_witness :
    MultitaskBERT_init ("bogus") [true] 2 = Except.error PyExc.assertionError :=
  fine_tune_mode_invalid_raises_assertion ("bogus") [true] 2 (by decide) (by decide)

/-- Claim C4: in the sequential per-task training path, the first training
step of the STS phase raises TypeError, because line 585 calls sts_loss
with two positional arguments while sts_loss requires three; the backward
pass and the optimizer step are never reached, so the STS phase can never
complete a single training step. -/
theorem sts_phase_first_step_raises_type_error :
    stsTrainStep = Except.error PyExc.typeError := rfl

lemma MultitaskBERT_init_last_eq (bertInit : List Bool) (n : ℕ) :
    MultitaskBERT_init ("last-linear-layer") bertInit n =
      Except.ok (MultitaskBERTState.mk (bertInit.map (fun _ => false))
        (List.replicate n true)) := by
  unfold MultitaskBERT_init
  rw [if_pos (Or.inl rfl)]
  have h : (fun g : Bool =>
      if ("last-linear-layer" : String) = ("last-linear-layer") then false
      else if ("last-linear-layer" : String) = ("full-model") then true
      else g) = fun _ : Bool => false := by
    funext g
    rw [if_pos rfl]
  rw [h]

lemma MultitaskBERT_init_full_eq (bertInit : List Bool) (n : ℕ) :
    MultitaskBERT_init ("full-model") bertInit n =
      Except.ok (MultitaskBERTState.mk (bertInit.map (fun _ => true))
        (List.replicate n true)) := by
  unfold MultitaskBERT_init
  rw [if_pos (Or.inr rfl)]
  have h : (fun g : Bool =>
      if ("full-model" : String) = ("last-linear-layer") then false
      else if ("full-model" : String) = ("full-model") then true
      else g) = fun _ : Bool => true := by
    funext g
    rw [if_neg (by decide), if_pos rfl]
  rw [h]

/-- Claim C5: after construction with last-linear-layer every backbone
parameter has requires_grad false while every task-head parameter remains
trainable; after construction with full-model every backbone parameter has
requires_grad true (and the heads are trainable as well). -/
theorem fine_tune_mode_sets_requires_grad :
    ∀ (bertInit : List Bool) (n : ℕ) (stL stF : MultitaskBERTState),
      MultitaskBERT_init ("last-linear-layer") bertInit n = Except.ok stL →
      MultitaskBERT_init ("full-model") bertInit n = Except.ok stF →
      (∀ g ∈ stL.bertRequiresGrad, g = false) ∧
      (∀ g ∈ stL.headRequiresGrad, g = true) ∧
      (∀ g ∈ stF.bertRequiresGrad, g = true) ∧
      (∀ g ∈ stF.headRequiresGrad, g = true) := by
  intro bertInit n stL stF hL hF
  rw [MultitaskBERT_init_last_eq] at hL
  rw [MultitaskBERT_init_full_eq] at hF
  have hL2 := (Except.ok.inj hL).symm
  have hF2 := (Except.ok.inj hF).symm
  subst hL2
  subst hF2
  refine ⟨?_, ?_, ?_, ?_⟩
  · intro g hg
    obtain ⟨a, _, ha⟩ := List.mem_map.mp hg
    exact ha.symm
  · intro g hg
    exact List.eq_of_mem_replicate hg
  · intro g hg
    obtain ⟨a, _, ha⟩ := List.mem_map.mp hg
    exact ha.symm
  · intro g hg
    exact List.eq_of_mem_replicate hg

/-- Witness for C5: one backbone parameter and one head parameter. -/
theorem fine_tune_mode_sets_requires_grad_witness :
    (∀ g ∈ (MultitaskBERTState.mk [false] [true]).bertRequiresGrad, g = false) ∧
    (∀ g ∈ (MultitaskBERTState.mk [false] [true]).headRequiresGrad, g = true) ∧
    (∀ g ∈ (MultitaskBERTState.mk [true] [true]).bertRequiresGrad, g = true) ∧
    (∀ g ∈ (MultitaskBERTState.mk [true] [true]).headRequiresGrad, g = true) :=
  fine_tune_mode_sets_requires_grad [true] 1 (MultitaskBERTState.mk [false] [true])
    (MultitaskBERTState.mk [true] [true])
    (by rw [MultitaskBERT_init_last_eq]; rfl)
    (by rw [MultitaskBERT_init_full_eq]; rfl)

/-- Claim C6: the checkpoint dictionary written by save_model has exactly
the seven keys model, optim, args, model_config, system_rng, numpy_rng and
torch_rng, each mapped to the corresponding bundled component: the model
parameter state, the optimizer state, the run configuration (args and
model config), and the system, array-library and tensor-library RNG
states. -/
theorem save_model_bundles_exact_components :
    ∀ (m o a c sr nr tr : ℕ),
      (save_info m o a c sr nr tr).map Prod.fst =
        [("model"), ("optim"), ("args"), ("model_config"),
         ("system_rng"), ("numpy_rng"), ("torch_rng")] ∧
      (save_info m o a c sr nr tr).lookup ("model") = some (SaveComponent.modelStateDict m) ∧
      (save_info m o a c sr nr tr).lookup ("optim") = some (SaveComponent.optimStateDict o) ∧
      (save_info m o a c sr nr tr).lookup ("args") = some (SaveComponent.runArgs a) ∧
      (save_info m o a c sr nr tr).lookup ("model_config") =
        some (SaveComponent.runModelConfig c) ∧
      (save_info m o a c sr nr tr).lookup ("system_rng") =
        some (SaveComponent.systemRngState sr) ∧
      (save_info m o a c sr nr tr).lookup ("numpy_rng") =
        some (SaveComponent.numpyRngState nr) ∧
      (save_info m o a c sr nr tr).lookup ("torch_rng") =
        some (SaveComponent.torchRngState tr) := by
  intro m o a c sr nr tr
  refine ⟨rfl, ?_, ?_, ?_, ?_, ?_, ?_, ?_⟩ <;> rfl

/-- Claim C7: each training step of train_PCGrad appends to the event
trace exactly zero_grad, then pc_backward on the ordered list of the three
per-task losses, then the optimizer step; no combined-loss backward pass
occurs among these events, and the accumulated reported training loss grows
by the unweighted sum of the three per-task losses. -/
theorem pcgrad_step_sequence_and_loss :
    ∀ (l1 l2 l3 : ℚ) (st : PCGradStepState),
      pcgradStep l1 l2 l3 st =
        { events := st.events ++
            [PCGradEvent.zeroGrad, PCGradEvent.pcBackward [l1, l2, l3], PCGradEvent.optStep],
          trainLoss := st.trainLoss + (l1 + l2 + l3) } ∧
      ∀ (x : ℚ), PCGradEvent.combinedBackward x ∉
        ([PCGradEvent.zeroGrad, PCGradEvent.pcBackward [l1, l2, l3], PCGradEvent.optStep] :
          List PCGradEvent) := by
  intro l1 l2 l3 st
  constructor
  · simp [pcgradStep]
  · intro x
    simp

/-- Claim C8: the train_type flag selects the training procedure: None
runs the sequential per-task procedure, simultaneous the naive summed-loss
procedure, pcgrad the gradient-surgery procedure, and any other value runs
no training procedure at all. -/
theorem train_type_dispatch :
    dispatchTrainType none = TrainAction.sequential ∧
    dispatchTrainType (some ("simultaneous")) = TrainAction.simultaneousTrain ∧
    dispatchTrainType (some ("pcgrad")) = TrainAction.pcgradTrain ∧
    ∀ (s : String), s ≠ ("simultaneous") → s ≠ ("pcgrad") →
      dispatchTrainType (some s) = TrainAction.noTraining := by
  refine ⟨rfl, rfl, rfl, ?_⟩
  intro s h1 h2
  simp [dispatchTrainType, h1, h2]

/-- Witness for C8, at a concrete unrecognised train_type string. -/
theorem train_type_dispatch_witness :
    dispatchTrainType (some ("other")) = TrainAction.noTraining :=
  train_type_dispatch.2.2.2 ("other") (by decide) (by decide)

/-- Claim C9: when the reference gradient gj has zero squared norm, the
pairwise projection step raises no division-by-zero exception: the pair is
skipped and the projected gradient pg is returned unchanged. -/
theorem zero_norm_projection_skipped :
    ∀ (pg gj : List ℚ), normSq gj = 0 → projectPair pg gj = Except.ok pg := by
  intro pg gj h
  simp [projectPair, h]

/-- Witness for C9, with an all-zero reference gradient. -/
theorem zero_norm_projection_skipped_witness :
    projectPair [(1:ℚ), 2] [0, 0] = Except.ok [(1:ℚ), 2] :=
  zero_norm_projection_skipped [(1:ℚ), 2] [0, 0] (by norm_num [normSq, dotL])

lemma zipWith_left_of_length_eq :
    ∀ (l1 l2 : List ℚ), l1.length = l2.length →
      List.zipWith (fun a _ => a) l1 l2 = l1 := by
  intro l1
  induction l1 with
  | nil => intro l2 h; simp
  | cons a t ih =>
    intro l2 h
    cases l2 with
    | nil => simp at h
    | cons b t2 =>
      simp only [List.length_cons, Nat.succ.injEq] at h
      simp [ih t2 h]

/-- Claim C10: the pairwise projection is idempotent against an orthogonal
pair: when the dot product of pg and gj is zero, the projection formula
leaves pg unchanged, and the guarded projection performs no projection at
all whenever the dot product is zero or positive. -/
theorem projection_idempotent_orthogonal :
    ∀ (pg gj : List ℚ), pg.length = gj.length → dotL pg gj = 0 →
      projFormula pg gj = pg ∧ projectPair pg gj = Except.ok pg ∧
      ∀ (pg2 gj2 : List ℚ), 0 ≤ dotL pg2 gj2 → projectPair pg2 gj2 = Except.ok pg2 := by
  intro pg gj hlen hdot
  refine ⟨?_, ?_, ?_⟩
  · have h2 : projFormula pg gj = List.zipWith (fun a _ => a) pg gj := by
      simp [projFormula, hdot]
    rw [h2]
    exact zipWith_left_of_length_eq pg gj hlen
  · simp [projectPair, hdot]
  · intro pg2 gj2 h2
    simp [projectPair, not_lt.mpr h2]

/-- Witness for C10, with the orthogonal pair of standard basis vectors. -/
theorem projection_idempotent_orthogonal_witness :
    projFormula [(1:ℚ), 0] [0, 1] = [(1:ℚ), 0] ∧
    projectPair [(1:ℚ), 0] [0, 1] = Except.ok [(1:ℚ), 0] :=
  ⟨(projection_idempotent_orthogonal [(1:ℚ), 0] [0, 1] rfl (by norm_num [dotL])).1,
   (projection_idempotent_orthogonal [(1:ℚ), 0] [0, 1] rfl (by norm_num [dotL])).2.1⟩
